import Mathlib

/-!
Verification of the `mac_prefs` execution module (`src/_modules/mac_prefs.py`)
and the `mac_prefs` state module (`src/_states/mac_prefs.py`) against their
natural-language specification.

The Python code is shallowly embedded:

* Python exceptions are modelled by the inductive `Exn`; a fallible pure
  function returns `Except Exn α`.
* The native CFPreferences layer (`Foundation.CFPreferencesCopyValue`,
  `CFPreferencesCopyAppValue`, `CFPreferencesSetValue`,
  `CFPreferencesSetAppValue`, `CFPreferencesAppSynchronize`,
  `CFPreferencesCopyKeyList`) and the account lookup (`pwd.getpwnam`) are
  external collaborators; they are modelled by the `Native ω` structure, an
  oracle over an abstract world `ω` whose operations may mutate the world and
  may raise.
* The one piece of process-global state touched by the module, the effective
  uid manipulated through `os.seteuid`, lives in `PState` together with the
  native world.  A stateful Python function becomes a function
  `PState ω → Res ω α`, where `Res` keeps the (possibly mutated) state on the
  exception path as well, exactly as a raised Python exception leaves the
  process euid wherever it was.
* Preference values are the closed value set handled by the module: string,
  integer, boolean, date (carried as its string rendering), list, dictionary.
  `_convert_pyobjc_objects` converts a top-level date to its string form and
  is the identity on the other constructors (the underlying
  `Conversion.pythonCollectionFromPropertyList` maps the object graph to the
  already-Python-shaped values this model starts from).
-/

/-- Python exceptions raised or caught by the module. -/
inductive Exn where
  | commandExecutionError (msg : String)
  | typeError
  | attributeError
  | nativeError (msg : String)
deriving DecidableEq

/-- The closed set of preference value shapes handled by the module.
A date carries its string rendering (`str(NSDate)` / `str(datetime)`). -/
inductive Value where
  | str (s : String)
  | num (n : Int)
  | bool (b : Bool)
  | date (s : String)
  | vlist (vs : List Value)
  | vdict (kvs : List (String × Value))

mutual

/-- Structural equality test on preference values (Python `==` over the
closed value set). -/
def beqV : Value → Value → Bool
  | .str a, .str b => a == b
  | .num a, .num b => a == b
  | .bool a, .bool b => a == b
  | .date a, .date b => a == b
  | .vlist a, .vlist b => beqL a b
  | .vdict a, .vdict b => beqD a b
  | _, _ => false

/-- Equality test on lists of preference values. -/
def beqL : List Value → List Value → Bool
  | [], [] => true
  | a :: as, b :: bs => beqV a b && beqL as bs
  | _, _ => false

/-- Equality test on dictionaries of preference values. -/
def beqD : List (String × Value) → List (String × Value) → Bool
  | [], [] => true
  | (k, a) :: as, (l, b) :: bs => k == l && beqV a b && beqD as bs
  | _, _ => false

end

instance : BEq Value := ⟨beqV⟩

/-- `Foundation.kCFPreferencesAnyUser` / `kCFPreferencesCurrentUser`. -/
inductive UserScope where
  | anyUser
  | currentUser
deriving DecidableEq

/-- `Foundation.kCFPreferencesAnyHost` / `kCFPreferencesCurrentHost`. -/
inductive HostScope where
  | anyHost
  | currentHost
deriving DecidableEq

/-- Process state threaded through the embedded module: the effective uid
(`os.seteuid`) and the abstract world of the native preference store. -/
structure PState (ω : Type) where
  euid : Nat
  world : ω

/-- Result of running an embedded stateful Python function: a normal return
or a raised exception, in both cases together with the state at that point
(a Python exception does not roll back `os.seteuid`). -/
inductive Res (ω : Type) (α : Type) where
  | ok (a : α) (s : PState ω)
  | err (e : Exn) (s : PState ω)

/-- An embedded stateful Python computation. -/
def M (ω : Type) (α : Type) : Type := PState ω → Res ω α

/-- The external collaborators: the native CFPreferences API and
`pwd.getpwnam`.  Each preference operation acts on the abstract world and may
raise any exception; `getpwnam` resolves a short username to a uid. -/
structure Native (ω : Type) where
  copyValue : String → String → UserScope → HostScope → ω → Except Exn (Option Value) × ω
  copyAppValue : String → String → ω → Except Exn (Option Value) × ω
  setValue : String → Option Value → String → UserScope → HostScope → ω → Except Exn Bool × ω
  setAppValue : String → Option Value → String → ω → Except Exn Unit × ω
  appSynchronize : String → ω → Except Exn Bool × ω
  copyKeyList : String → UserScope → HostScope → ω → Except Exn (Option (List String)) × ω
  getpwnam : String → Option Nat

/-- Python truthiness of an optional string argument (`None` and `""` are
falsy, any non-empty string is truthy). -/
def truthy : Option String → Bool
  | none => false
  | some s => !s.isEmpty

/-- Message of the `CommandExecutionError` in `_check_args` when `runas` is
given without both `user` and `host`. -/
def missingScopeMsg : String :=
  "If using \"runas\" you must specify a \"user\" and \"host\" domains."

/-- Message of the `CommandExecutionError` in `_check_args` when exactly one
of `user`/`host` is given. -/
def incompleteScopeMsg : String :=
  "If using \"host\" or \"user\" you must specify both."

/-- Message of the `CommandExecutionError` in `_get_user_and_host` for an
invalid `user` selector. -/
def invalidUserMsg (u : String) : String :=
  "Error proccessing parameter \"user\": [" ++ u ++ "], must be \"any\" or" ++
    " \"current\". NOT [" ++ u ++ "]"

/-- Message of the `CommandExecutionError` in `_get_user_and_host` for an
invalid `host` selector. -/
def invalidHostMsg (h : String) : String :=
  "Error proccessing parameter \"host\": [" ++ h ++ "], must be \"any\" or" ++
    " \"current\". NOT [" ++ h ++ "]"

/-- Message of the `CommandExecutionError` raised by `_read_pref` and
`_set_pref` when `runas` names a nonexistent account. -/
def runasMissingMsg (r : String) : String :=
  "Set to runas user " ++ r ++ ", this user does not exist."

/-- Message of the `CommandExecutionError` raised by `list_` when `runas`
names a nonexistent account (this one brackets the username). -/
def runasMissingBracketMsg (r : String) : String :=
  "Set to runas user [" ++ r ++ "], this user does not exist."

/-- ASCII lowercase of one character, as Python `str.lower` acts on the
ASCII range (the selector strings compared against "any"/"current"). -/
def pyLowerChar (c : Char) : Char :=
  if 'A' ≤ c ∧ c ≤ 'Z' then Char.ofNat (c.toNat + 32) else c

/-- Python `str.lower()`, modelled on the ASCII range. -/
def pyLower (s : String) : String := String.mk (s.data.map pyLowerChar)

/-- `_check_args(user, host, runas)`: raises if `runas` is truthy without
both `user` and `host` being truthy, or if exactly one of `user`/`host` is
truthy; otherwise returns `True`. -/
def _check_args (user host runas : Option String) : Except Exn Bool :=
  if truthy runas && !(truthy user && truthy host) then
    .error (.commandExecutionError missingScopeMsg)
  else if (truthy user || truthy host) && !(truthy user && truthy host) then
    .error (.commandExecutionError incompleteScopeMsg)
  else
    .ok true

/-- `_get_user_and_host(user, host)`: lowercases each selector and maps
"any"/"current" to the corresponding scope constants; any other string
raises a `CommandExecutionError` naming the offending parameter.  Calling
`.lower()` on `None` raises `AttributeError`, which the model reproduces. -/
def _get_user_and_host : Option String → Option String → Except Exn (UserScope × HostScope)
  | none, _ => .error .attributeError
  | some u, host =>
    match (if pyLower u = "any" then Except.ok UserScope.anyUser
           else if pyLower u = "current" then Except.ok UserScope.currentUser
           else Except.error (Exn.commandExecutionError (invalidUserMsg u))) with
    | .error e => .error e
    | .ok user_pref =>
      match host with
      | none => .error .attributeError
      | some h =>
        if pyLower h = "any" then .ok (user_pref, HostScope.anyHost)
        else if pyLower h = "current" then .ok (user_pref, HostScope.currentHost)
        else .error (.commandExecutionError (invalidHostMsg h))

/-- `_convert_pyobjc_objects`: a top-level `NSDate` becomes its string
rendering; everything else passes through
`Conversion.pythonCollectionFromPropertyList`, modelled as the identity on
this already-Python-shaped value type. -/
def _convert_pyobjc_objects : Value → Value
  | .date s => .str s
  | v => v

/-- The `runas` preamble shared by `_read_pref`, `_set_pref` and `list_`:
if `runas` is truthy, resolve it through `pwd.getpwnam` (raising a
`CommandExecutionError` built by `mkMsg` on `KeyError`) and `os.seteuid` to
the resolved uid; otherwise do nothing. -/
def resolveRunas (N : Native ω) (mkMsg : String → String) (runas : Option String) : M ω Unit :=
  fun s =>
    if truthy runas then
      match N.getpwnam (runas.getD "") with
      | some uid => .ok () { s with euid := uid }
      | none => .err (.commandExecutionError (mkMsg (runas.getD ""))) s
    else
      .ok () s

/-- `_read_pref(name, domain, user, host, runas)`: optionally impersonate
`runas`, then either a scoped `CFPreferencesCopyValue` (restoring euid 0
afterwards on the normal path only) or an unscoped
`CFPreferencesCopyAppValue` (which never touches the euid). -/
def _read_pref (N : Native ω) (name domain : String)
    (user host runas : Option String) : M ω (Option Value) := fun s =>
  match resolveRunas N runasMissingMsg runas s with
  | .err e s1 => .err e s1
  | .ok _ s1 =>
    if truthy user then
      match _get_user_and_host user host with
      | .error e => .err e s1
      | .ok (user_domain, host_domain) =>
        match N.copyValue name domain user_domain host_domain s1.world with
        | (.error e, w) => .err e { s1 with world := w }
        | (.ok value, w) => .ok value { euid := 0, world := w }
    else
      match N.copyAppValue name domain s1.world with
      | (.error e, w) => .err e { s1 with world := w }
      | (.ok value, w) => .ok value { s1 with world := w }

/-- `_set_pref(name, value, domain, user, host, runas)`: optionally
impersonate `runas`; in the scoped path wrap `CFPreferencesSetValue` and
`CFPreferencesAppSynchronize` in `try: ... except BaseException: return
False` (the `os.seteuid(0)` sits inside the `try`, after the synchronize, so
the except path does not restore the euid); in the unscoped path call
`CFPreferencesSetAppValue` and return the result of
`CFPreferencesAppSynchronize`, with no exception handling at all. -/
def _set_pref (N : Native ω) (name : String) (value : Option Value) (domain : String)
    (user host runas : Option String) : M ω Bool := fun s =>
  match resolveRunas N runasMissingMsg runas s with
  | .err e s1 => .err e s1
  | .ok _ s1 =>
    if truthy user then
      match _get_user_and_host user host with
      | .error e => .err e s1
      | .ok (pref_user, pref_host) =>
        match N.setValue name value domain pref_user pref_host s1.world with
        | (.error _, w) => .ok false { s1 with world := w }
        | (.ok set_val, w) =>
          match N.appSynchronize domain w with
          | (.error _, w2) => .ok false { s1 with world := w2 }
          | (.ok _, w2) => .ok set_val { euid := 0, world := w2 }
    else
      match N.setAppValue name value domain s1.world with
      | (.error e, w) => .err e { s1 with world := w }
      | (.ok _, w) =>
        match N.appSynchronize domain w with
        | (.error e, w2) => .err e { s1 with world := w2 }
        | (.ok b, w2) => .ok b { s1 with world := w2 }

/-- `read(name, domain, user, host, runas)`: validate the arguments, read
through `_read_pref` and convert the result with
`_convert_pyobjc_objects`. -/
def read (N : Native ω) (name domain : String)
    (user host runas : Option String) : M ω (Option Value) := fun s =>
  match _check_args user host runas with
  | .error e => .err e s
  | .ok _ =>
    match _read_pref N name domain user host runas s with
    | .err e s1 => .err e s1
    | .ok v s1 => .ok (v.map _convert_pyobjc_objects) s1

/-- `set_(name, value, domain, user, host, runas)`: validate the arguments,
write through `_set_pref`, then read the key back; the returned boolean is
`new_val == value` — the boolean coming back from `_set_pref` is ignored. -/
def set_ (N : Native ω) (name : String) (value : Option Value) (domain : String)
    (user host runas : Option String) : M ω Bool := fun s =>
  match _check_args user host runas with
  | .error e => .err e s
  | .ok _ =>
    match _set_pref N name value domain user host runas s with
    | .err e s1 => .err e s1
    | .ok _ s1 =>
      match read N name domain user host runas s1 with
      | .err e s2 => .err e s2
      | .ok new_val s2 => .ok (new_val == value) s2

/-- Result of `list_`: a plain key list (`values=False`), a key-to-value
dictionary (`values=True`), or Python `None` (the `except TypeError`
branch). -/
inductive ListRet where
  | keys (ks : List String)
  | vals (m : List (String × Option Value))
  | pyNone

/-- The `for item in con_key_list: value_dict[item] = read(...)` loop of
`list_`, building the dictionary in iteration order; the first exception
aborts the loop. -/
def readLoop (N : Native ω) (domainName : String) (user host runas : Option String) :
    List String → M ω (List (String × Option Value))
  | [] => fun s => .ok [] s
  | k :: ks => fun s =>
    match read N k domainName user host runas s with
    | .err e s1 => .err e s1
    | .ok v s1 =>
      match readLoop N domainName user host runas ks s1 with
      | .err e s2 => .err e s2
      | .ok m s2 => .ok ((k, v) :: m) s2

/-- `list_(name, user, host, runas, values)`: validate arguments, resolve
the scope, optionally impersonate, enumerate the keys with
`CFPreferencesCopyKeyList`, `os.seteuid(0)`, and either return the key list
(`values=False`) or read every key, returning `None` if any read raises
`TypeError` (any other exception propagates). -/
def list_ (N : Native ω) (name : String) (user host runas : Option String)
    (values : Bool) : M ω ListRet := fun s =>
  match _check_args user host runas with
  | .error e => .err e s
  | .ok _ =>
    match _get_user_and_host user host with
    | .error e => .err e s
    | .ok (user_domain, host_domain) =>
      match resolveRunas N runasMissingBracketMsg runas s with
      | .err e s1 => .err e s1
      | .ok _ s1 =>
        match N.copyKeyList name user_domain host_domain s1.world with
        | (.error e, w) => .err e { s1 with world := w }
        | (.ok key_list, w) =>
          let s2 : PState ω := { euid := 0, world := w }
          let con_key_list := key_list.getD []
          if values = false then .ok (.keys con_key_list) s2
          else
            match readLoop N name user host runas con_key_list s2 with
            | .ok m s3 => .ok (.vals m) s3
            | .err .typeError s3 => .ok .pyNone s3
            | .err e s3 => .err e s3

mutual

/-- Python `repr` of a preference value (used inside containers by `str`).
The rendering of a date inside a container is abstracted as its carried
string; no state comment ever formats a container. -/
def pyReprV : Value → String
  | .str s => "\x27" ++ s ++ "\x27"
  | .num n => toString n
  | .bool true => "True"
  | .bool false => "False"
  | .date s => s
  | .vlist vs => "[" ++ pyReprList vs ++ "]"
  | .vdict kvs => "\x7b" ++ pyReprDict kvs ++ "\x7d"

/-- Comma-joined `repr` of the elements of a list value. -/
def pyReprList : List Value → String
  | [] => ""
  | [v] => pyReprV v
  | v :: vs => pyReprV v ++ ", " ++ pyReprList vs

/-- Comma-joined `repr` of the entries of a dictionary value. -/
def pyReprDict : List (String × Value) → String
  | [] => ""
  | [(k, v)] => "\x27" ++ k ++ "\x27: " ++ pyReprV v
  | (k, v) :: kvs => "\x27" ++ k ++ "\x27: " ++ pyReprV v ++ ", " ++ pyReprDict kvs

end

/-- Python `str` of a preference value, as used by `'{}'.format(value)` in
the state-layer comments. -/
def pyStrV : Value → String
  | .str s => s
  | .date s => s
  | .num n => toString n
  | .bool true => "True"
  | .bool false => "False"
  | .vlist vs => "[" ++ pyReprList vs ++ "]"
  | .vdict kvs => "\x7b" ++ pyReprDict kvs ++ "\x7d"

/-- Python `str` of an optional value (`str(None) = "None"`). -/
def pyStr : Option Value → String
  | none => "None"
  | some v => pyStrV v

/-- The state-layer return dictionary
`{name, result: true|false|None, changes, comment}`; `changes` maps a key to
its `{old, new}` pair. -/
structure SRet where
  name : String
  result : Option Bool
  changes : List (String × (Option Value × Option Value))
  comment : String

/-- `exists(name, value, domain, user, host, runas)` from the state module:
read the current value, return already-satisfied if it equals the desired
value, otherwise record the change, honour test (dry-run) mode, and
otherwise write through `prefs.set` and report its boolean. `test` is
`__opts__['test']`. -/
def exists_ (N : Native ω) (test : Bool) (name : String) (value : Option Value)
    (domain : String) (user host runas : Option String) : M ω SRet := fun s =>
  match read N name domain user host runas s with
  | .err e s1 => .err e s1
  | .ok old_value s1 =>
    if old_value == value then
      .ok ⟨name, some true, [],
        domain ++ " " ++ name ++ " is already set to " ++ pyStr value⟩ s1
    else if test then
      .ok ⟨name, none, [(name, (old_value, value))],
        domain ++ " " ++ name ++ " would be set to " ++ pyStr value⟩ s1
    else
      match set_ N name value domain user host runas s1 with
      | .err e s2 => .err e s2
      | .ok set_val s2 =>
        if set_val then
          .ok ⟨name, some true, [(name, (old_value, value))],
            domain ++ " " ++ name ++ " is set to " ++ pyStr value⟩ s2
        else
          .ok ⟨name, some false, [(name, (old_value, value))],
            "Failed to set " ++ domain ++ " " ++ name ++ " to " ++ pyStr value⟩ s2

/-- `write(...)` from the state module, a deprecated alias of `exists`. -/
def write (N : Native ω) (test : Bool) (name : String) (value : Option Value)
    (domain : String) (user host runas : Option String) : M ω SRet :=
  exists_ N test name value domain user host runas

/-- `absent(name, domain, user, host, runas)` from the state module: read
the current value, return already-removed if it is `None`, otherwise record
the deletion, honour test (dry-run) mode, and otherwise delete through
`prefs.set(name, None, ...)` and report its boolean. -/
def absent (N : Native ω) (test : Bool) (name domain : String)
    (user host runas : Option String) : M ω SRet := fun s =>
  match read N name domain user host runas s with
  | .err e s1 => .err e s1
  | .ok old_value s1 =>
    if old_value == none then
      .ok ⟨name, some true, [], domain ++ " " ++ name ++ " is already removed."⟩ s1
    else if test then
      .ok ⟨name, none, [(name, (old_value, none))],
        domain ++ " " ++ name ++ " would be removed."⟩ s1
    else
      match set_ N name none domain user host runas s1 with
      | .err e s2 => .err e s2
      | .ok set_val s2 =>
        if set_val then
          .ok ⟨name, some true, [(name, (old_value, none))],
            domain ++ " " ++ name ++ " has been removed."⟩ s2
        else
          .ok ⟨name, some false, [(name, (old_value, none))],
            "Failed to remove " ++ domain ++ " " ++ name ++ "."⟩ s2

/-- `delete(...)` from the state module, a deprecated alias of `absent`. -/
def delete (N : Native ω) (test : Bool) (name domain : String)
    (user host runas : Option String) : M ω SRet :=
  absent N test name domain user host runas

/-- A concrete world for well-behaved stores: the stored value (if any) per
(domain, key). -/
def Store : Type := String → String → Option Value

/-- Update (or, with `none`, delete) the entry of one (domain, key) pair. -/
def updateW (w : Store) (d n : String) (v : Option Value) : Store :=
  fun dQ nQ => if dQ = d ∧ nQ = n then v else w dQ nQ

/-- A well-behaved native layer with no external interference: reads return
what was last written, writes succeed, synchronization succeeds, and no call
raises.  Scopes are ignored (a single store backs every scope), `getpwnam`
knows no accounts, and `copyKeyList` reports no keys. -/
def goodNative : Native Store where
  copyValue := fun name domain _ _ w => (.ok (w domain name), w)
  copyAppValue := fun name domain w => (.ok (w domain name), w)
  setValue := fun name v domain _ _ w => (.ok true, updateW w domain name v)
  setAppValue := fun name v domain w => (.ok (), updateW w domain name v)
  appSynchronize := fun _ w => (.ok true, w)
  copyKeyList := fun _ _ _ w => (.ok none, w)
  getpwnam := fun _ => none

/-- Like `goodNative`, except that `CFPreferencesAppSynchronize` reports
failure (returns `False`) while the write itself still lands. -/
def syncFalseNative : Native Store where
  copyValue := fun name domain _ _ w => (.ok (w domain name), w)
  copyAppValue := fun name domain w => (.ok (w domain name), w)
  setValue := fun name v domain _ _ w => (.ok true, updateW w domain name v)
  setAppValue := fun name v domain w => (.ok (), updateW w domain name v)
  appSynchronize := fun _ w => (.ok false, w)
  copyKeyList := fun _ _ _ w => (.ok none, w)
  getpwnam := fun _ => none

/-- A native layer whose every preference call raises. -/
def throwNative : Native Unit where
  copyValue := fun _ _ _ _ w => (.error (.nativeError "boom"), w)
  copyAppValue := fun _ _ w => (.error (.nativeError "boom"), w)
  setValue := fun _ _ _ _ _ w => (.error (.nativeError "boom"), w)
  setAppValue := fun _ _ _ w => (.error (.nativeError "boom"), w)
  appSynchronize := fun _ w => (.error (.nativeError "boom"), w)
  copyKeyList := fun _ _ _ w => (.error (.nativeError "boom"), w)
  getpwnam := fun _ => none

/-- A native layer where the account "bob" exists with uid 501 and the
scoped `CFPreferencesSetValue` raises. -/
def raiseSetNative : Native Unit where
  copyValue := fun _ _ _ _ w => (.ok none, w)
  copyAppValue := fun _ _ w => (.ok none, w)
  setValue := fun _ _ _ _ _ w => (.error (.nativeError "set failed"), w)
  setAppValue := fun _ _ _ w => (.ok (), w)
  appSynchronize := fun _ w => (.ok true, w)
  copyKeyList := fun _ _ _ w => (.ok none, w)
  getpwnam := fun r => if r = "bob" then some 501 else none

/-- A native layer that lists the keys "a" and "b" but raises `TypeError`
when the value of "b" is read. -/
def badTypeNative : Native Unit where
  copyValue := fun name _ _ _ w =>
    if name = "b" then (.error .typeError, w) else (.ok (some (.num 1)), w)
  copyAppValue := fun _ _ w => (.ok none, w)
  setValue := fun _ _ _ _ _ w => (.ok true, w)
  setAppValue := fun _ _ _ w => (.ok (), w)
  appSynchronize := fun _ w => (.ok true, w)
  copyKeyList := fun _ _ _ w => (.ok (some ["a", "b"]), w)
  getpwnam := fun _ => none

/-- A store that is empty everywhere. -/
def emptyStore : Store := fun _ _ => none

/-- A store holding exactly `IdleTime = 180` in `com.apple.ScreenSaver`. -/
def w180 : Store := fun d n =>
  if d = "com.apple.ScreenSaver" ∧ n = "IdleTime" then some (.num 180) else none

/-- The string rendering of a concrete date value. -/
def dateStr : String := "2020-01-01 00:00:00 +0000"

/-- `emptyStore` after writing the date `dateStr` under `D K`. -/
def dateWorld1 : Store := updateW emptyStore "D" "K" (some (.date dateStr))

/-- `dateWorld1` after writing the same date again. -/
def dateWorld2 : Store := updateW dateWorld1 "D" "K" (some (.date dateStr))

mutual

/-- `beqV` is reflexive. -/
theorem beqV_refl : ∀ v : Value, beqV v v = true
  | .str s => by simp [beqV]
  | .num n => by simp [beqV]
  | .bool b => by simp [beqV]
  | .date s => by simp [beqV]
  | .vlist vs => by simp [beqV, beqL_refl vs]
  | .vdict kvs => by simp [beqV, beqD_refl kvs]

/-- `beqL` is reflexive. -/
theorem beqL_refl : ∀ vs : List Value, beqL vs vs = true
  | [] => rfl
  | v :: vs => by simp [beqL, beqV_refl v, beqL_refl vs]

/-- `beqD` is reflexive. -/
theorem beqD_refl : ∀ kvs : List (String × Value), beqD kvs kvs = true
  | [] => rfl
  | (k, v) :: kvs => by simp [beqD, beqV_refl v, beqD_refl kvs]

end

/-- `==` on optional preference values is reflexive. -/
theorem obeq_refl : ∀ o : Option Value, (o == o) = true
  | none => rfl
  | some v => by show beqV v v = true; exact beqV_refl v

/-- Under `goodNative`, an unscoped `read` returns the converted stored
value and leaves the state untouched. -/
theorem read_goodNative (w : Store) (key domain : String) (e : Nat) :
    read goodNative key domain none none none ⟨e, w⟩ =
      .ok ((w domain key).map _convert_pyobjc_objects) ⟨e, w⟩ := rfl

/-- Under `goodNative`, an unscoped `set_` stores the value and returns the
read-back comparison of the converted written value against the request. -/
theorem set_goodNative (w : Store) (key domain : String) (v : Option Value) (e : Nat) :
    set_ goodNative key v domain none none none ⟨e, w⟩ =
      .ok ((v.map _convert_pyobjc_objects) == v) ⟨e, updateW w domain key v⟩ := by
  have h0 : set_ goodNative key v domain none none none ⟨e, w⟩ =
      .ok (((updateW w domain key v domain key).map _convert_pyobjc_objects) == v)
        ⟨e, updateW w domain key v⟩ := rfl
  have hw : updateW w domain key v domain key = v := by simp [updateW]
  rw [h0, hw]

/-- Behaviour of the state-layer `exists_` under `goodNative`, by cases on
whether the converted current value equals the desired one, on test mode,
and on whether the desired value survives the read-back conversion. -/
theorem exists_goodNative (w : Store) (key domain : String) (v : Option Value) (test : Bool) :
    exists_ goodNative test key v domain none none none ⟨0, w⟩ =
      (if ((w domain key).map _convert_pyobjc_objects) == v then
        .ok ⟨key, some true, [], domain ++ " " ++ key ++ " is already set to " ++ pyStr v⟩ ⟨0, w⟩
      else if test then
        .ok ⟨key, none, [(key, ((w domain key).map _convert_pyobjc_objects, v))],
          domain ++ " " ++ key ++ " would be set to " ++ pyStr v⟩ ⟨0, w⟩
      else if (v.map _convert_pyobjc_objects) == v then
        .ok ⟨key, some true, [(key, ((w domain key).map _convert_pyobjc_objects, v))],
          domain ++ " " ++ key ++ " is set to " ++ pyStr v⟩ ⟨0, updateW w domain key v⟩
      else
        .ok ⟨key, some false, [(key, ((w domain key).map _convert_pyobjc_objects, v))],
          "Failed to set " ++ domain ++ " " ++ key ++ " to " ++ pyStr v⟩
          ⟨0, updateW w domain key v⟩) := by
  simp only [exists_, read_goodNative]
  cases hb : ((w domain key).map _convert_pyobjc_objects) == v
  · cases test
    · simp [hb, set_goodNative]
    · simp [hb]
  · simp [hb]

/-- Claim C4: `_check_args` succeeds exactly when `user` and `host` are
jointly present or jointly absent and `runas`, if present, is accompanied by
both; `runas` without both fails with the missing-scope error (this check
comes first), exactly one of `user`/`host` (with no `runas`) fails with the
incomplete-pair error, and all three absent succeeds. -/
theorem c4_check_args_spec (user host runas : Option String) :
    (_check_args user host runas = .ok true ↔
      (truthy user = truthy host ∧
        (truthy runas = true → truthy user = true ∧ truthy host = true)))
    ∧ (truthy runas = true → ¬(truthy user = true ∧ truthy host = true) →
        _check_args user host runas = .error (.commandExecutionError missingScopeMsg))
    ∧ (truthy runas = false → truthy user ≠ truthy host →
        _check_args user host runas = .error (.commandExecutionError incompleteScopeMsg))
    ∧ _check_args none none none = .ok true := by
  refine ⟨?_, ?_, ?_, rfl⟩ <;>
    cases hu : truthy user <;> cases hh : truthy host <;> cases hr : truthy runas <;>
      simp [_check_args, hu, hh, hr]

/-- Witness for C4: with `user = "current"`, `host` absent and
`runas = "bob"`, validation fails with the missing-scope error. -/
theorem c4_check_args_spec_witness :
    _check_args (some "current") none (some "bob") =
      .error (.commandExecutionError missingScopeMsg) :=
  (c4_check_args_spec (some "current") none (some "bob")).2.1 rfl (by decide)

/-- Claim C5: `_get_user_and_host` is case-insensitive — any case variant of
"any"/"current" behaves as the lowercase form — and any other selector fails
with the `CommandExecutionError` naming the offending parameter (`user`
checked first). -/
theorem c5_scope_case_insensitive (u h : String) :
    ((pyLower u = "any" ∨ pyLower u = "current") →
      (pyLower h = "any" ∨ pyLower h = "current") →
      _get_user_and_host (some u) (some h) =
        _get_user_and_host (some (pyLower u)) (some (pyLower h)))
    ∧ (¬(pyLower u = "any" ∨ pyLower u = "current") →
      _get_user_and_host (some u) (some h) =
        .error (.commandExecutionError (invalidUserMsg u)))
    ∧ ((pyLower u = "any" ∨ pyLower u = "current") →
      ¬(pyLower h = "any" ∨ pyLower h = "current") →
      _get_user_and_host (some u) (some h) =
        .error (.commandExecutionError (invalidHostMsg h))) := by
  refine ⟨?_, ?_, ?_⟩
  · rintro (hu | hu) (hh | hh) <;> simp [_get_user_and_host, hu, hh] <;> rfl
  · intro hu
    push_neg at hu
    simp [_get_user_and_host, hu.1, hu.2]
  · rintro (hu | hu) hh <;> (push_neg at hh; simp [_get_user_and_host, hu, hh.1, hh.2])

/-- Witness for C5: "ANY"/"CuRREnt" resolve exactly as "any"/"current", and
the selector "root" is rejected with the error naming the user parameter. -/
theorem c5_scope_case_insensitive_witness :
    _get_user_and_host (some "ANY") (some "CuRREnt") =
      _get_user_and_host (some "any") (some "current")
    ∧ _get_user_and_host (some "root") (some "current") =
      .error (.commandExecutionError (invalidUserMsg "root")) :=
  ⟨(c5_scope_case_insensitive "ANY" "CuRREnt").1 (Or.inl rfl) (Or.inr rfl),
    (c5_scope_case_insensitive "root" "current").2.1 (by decide)⟩

/-- Claim C1 (code bug): when the native scoped write raises under `runas`
impersonation, `_set_pref` returns `False` with the effective uid still set
to the impersonated uid 501, not restored to 0 (the `os.seteuid(0)` sits
inside the `try`); likewise `_read_pref` propagates a scope-resolution error
raised after the `os.seteuid(uid)` without restoring the euid. -/
theorem c1_euid_left_impersonated :
    _set_pref raiseSetNative "K" (some (.num 1)) "D" (some "current") (some "current")
      (some "bob") ⟨0, ()⟩ = .ok false ⟨501, ()⟩
    ∧ _read_pref raiseSetNative "K" "D" (some "BAD") (some "current") (some "bob") ⟨0, ()⟩ =
      .err (.commandExecutionError (invalidUserMsg "BAD")) ⟨501, ()⟩
    ∧ (501 : Nat) ≠ 0 :=
  ⟨rfl, rfl, by decide⟩

/-- Counterexample to C2 as stated: in the unscoped path (`user`, `host`,
`runas` all absent) a failure raised by the native write propagates out of
`set` instead of being reported as `False`. -/
theorem c2_unscoped_raise_propagates :
    set_ throwNative "K" (some (.num 1)) "D" none none none ⟨0, ()⟩ =
      .err (.nativeError "boom") ⟨0, ()⟩ :=
  rfl

/-- Claim C2 as amended: in the scoped path (truthy `user`, resolvable
`runas` and scope), `_set_pref` never lets a native write failure escape —
it always returns a boolean, and whenever the native set raises, or the
native set succeeds and the synchronize raises, that boolean is `False`. -/
theorem c2_scoped_write_errors_caught {ω : Type} (N : Native ω) (name : String)
    (value : Option Value) (domain : String) (user host runas : Option String)
    (s s1 : PState ω) (ud : UserScope) (hd : HostScope)
    (hres : resolveRunas N runasMissingMsg runas s = .ok () s1)
    (hu : truthy user = true)
    (hscope : _get_user_and_host user host = .ok (ud, hd)) :
    (∃ b s2, _set_pref N name value domain user host runas s = .ok b s2)
    ∧ (∀ e w, N.setValue name value domain ud hd s1.world = (.error e, w) →
        _set_pref N name value domain user host runas s = .ok false ⟨s1.euid, w⟩)
    ∧ (∀ sv w e2 w2, N.setValue name value domain ud hd s1.world = (.ok sv, w) →
        N.appSynchronize domain w = (.error e2, w2) →
        _set_pref N name value domain user host runas s = .ok false ⟨s1.euid, w2⟩) := by
  refine ⟨?_, ?_, ?_⟩
  · simp only [_set_pref, hres, hu, hscope, if_true]
    rcases hset : N.setValue name value domain ud hd s1.world with ⟨r | sv, w⟩
    · exact ⟨false, ⟨s1.euid, w⟩, by simp [hset]⟩
    · rcases hsync : N.appSynchronize domain w with ⟨e | b2, w2⟩
      · exact ⟨false, ⟨s1.euid, w2⟩, by simp [hset, hsync]⟩
      · exact ⟨sv, ⟨0, w2⟩, by simp [hset, hsync]⟩
  · intro e w hset
    simp only [_set_pref, hres, hu, hscope, if_true, hset]
  · intro sv w e2 w2 hset hsync
    simp only [_set_pref, hres, hu, hscope, if_true, hset, hsync]

/-- Witness for C2 (amended): against a native layer whose scoped set call
raises, the scoped `_set_pref` returns the boolean `False` rather than
raising. -/
theorem c2_scoped_write_errors_caught_witness :
    _set_pref throwNative "K" (some (.num 1)) "D" (some "current") (some "current")
      none ⟨0, ()⟩ = .ok false ⟨0, ()⟩ :=
  (c2_scoped_write_errors_caught throwNative "K" (some (.num 1)) "D" (some "current")
    (some "current") none ⟨0, ()⟩ ⟨0, ()⟩ .currentUser .currentHost rfl rfl rfl).2.1
    (.nativeError "boom") () rfl

/-- Counterexample to C3 as stated: against a store whose
`CFPreferencesAppSynchronize` reports failure (returns `False`), the exposed
`set` still returns `True`, because its result comes from the read-back
comparison and the synchronization result is discarded. -/
theorem c3_sync_failure_still_true :
    (syncFalseNative.appSynchronize "D" (updateW emptyStore "D" "K" (some (.num 1)))).1 =
      .ok false
    ∧ set_ syncFalseNative "K" (some (.num 1)) "D" none none none ⟨0, emptyStore⟩ =
      .ok true ⟨0, updateW emptyStore "D" "K" (some (.num 1))⟩ :=
  ⟨rfl, rfl⟩

/-- Claim C3 as amended: on every path where the native set succeeds,
`_set_pref` synchronizes the store immediately after the set and before
returning; in the unscoped path the helper's boolean is the synchronize
result (and a synchronize exception propagates), in the scoped path a
synchronize exception yields `False` while a normal synchronize leaves the
set's boolean — but the exposed `set` then derives its success from the
read-back, so a synchronize failure report does not by itself force a
`False` result. -/
theorem c3_sync_after_set {ω : Type} (N : Native ω) (name : String) (value : Option Value)
    (domain : String) (user host runas : Option String) (s s1 : PState ω)
    (hres : resolveRunas N runasMissingMsg runas s = .ok () s1) :
    (truthy user = false → ∀ w2,
      N.setAppValue name value domain s1.world = (.ok (), w2) →
      _set_pref N name value domain user host runas s =
        (match N.appSynchronize domain w2 with
         | (.ok b, w3) => .ok b ⟨s1.euid, w3⟩
         | (.error e, w3) => .err e ⟨s1.euid, w3⟩))
    ∧ (∀ ud hd sv w2,
      truthy user = true →
      _get_user_and_host user host = .ok (ud, hd) →
      N.setValue name value domain ud hd s1.world = (.ok sv, w2) →
      _set_pref N name value domain user host runas s =
        (match N.appSynchronize domain w2 with
         | (.ok _, w3) => .ok sv ⟨0, w3⟩
         | (.error _, w3) => .ok false ⟨s1.euid, w3⟩)) := by
  constructor
  · intro hu w2 hset
    simp only [_set_pref, hres, hu, Bool.false_eq_true, if_false, hset]
    rcases hsync : N.appSynchronize domain w2 with ⟨e | b, w3⟩ <;> simp [hsync]
  · intro ud hd sv w2 hu hscope hset
    simp only [_set_pref, hres, hu, if_true, hscope, hset]
    rcases hsync : N.appSynchronize domain w2 with ⟨e | b, w3⟩ <;> simp [hsync]

/-- Witness for C3 (amended): concrete unscoped and scoped writes through
`goodNative`, showing the result is the mapped outcome of the synchronize
call performed on the post-set store. -/
theorem c3_sync_after_set_witness :
    _set_pref goodNative "K" (some (.num 1)) "D" none none none ⟨0, emptyStore⟩ =
      (match goodNative.appSynchronize "D" (updateW emptyStore "D" "K" (some (.num 1))) with
       | (.ok b, w3) => .ok b ⟨0, w3⟩
       | (.error e, w3) => .err e ⟨0, w3⟩)
    ∧ _set_pref goodNative "K" (some (.num 1)) "D" (some "any") (some "any") none
        ⟨0, emptyStore⟩ =
      (match goodNative.appSynchronize "D" (updateW emptyStore "D" "K" (some (.num 1))) with
       | (.ok _, w3) => .ok true ⟨0, w3⟩
       | (.error _, w3) => .ok false ⟨0, w3⟩) :=
  ⟨(c3_sync_after_set goodNative "K" (some (.num 1)) "D" none none none
      ⟨0, emptyStore⟩ ⟨0, emptyStore⟩ rfl).1 rfl _ rfl,
   (c3_sync_after_set goodNative "K" (some (.num 1)) "D" (some "any") (some "any") none
      ⟨0, emptyStore⟩ ⟨0, emptyStore⟩ rfl).2 .anyUser .anyHost true _ rfl rfl rfl⟩

/-- Claim C10: whenever the helper write returns a boolean `sv` and the
read-back succeeds, the exposed `set` returns exactly the comparison of the
read-back value against the requested value — independently of `sv`, the
boolean produced by the native set/synchronize. -/
theorem c10_set_readback_verify {ω : Type} (N : Native ω) (name : String)
    (value : Option Value) (domain : String) (user host runas : Option String)
    (s s1 s2 : PState ω) (sv : Bool) (new_val : Option Value)
    (hchk : _check_args user host runas = .ok true)
    (hset : _set_pref N name value domain user host runas s = .ok sv s1)
    (hread : read N name domain user host runas s1 = .ok new_val s2) :
    set_ N name value domain user host runas s = .ok (new_val == value) s2 := by
  simp only [set_, hchk, hset, hread]

/-- Witness for C10: under `syncFalseNative` the helper write returns
`False`, yet `set` returns `True` because the read-back equals the request.
-/
theorem c10_set_readback_verify_witness :
    set_ syncFalseNative "K" (some (.num 2)) "D" none none none ⟨0, emptyStore⟩ =
      .ok true ⟨0, updateW emptyStore "D" "K" (some (.num 2))⟩ :=
  c10_set_readback_verify syncFalseNative "K" (some (.num 2)) "D" none none none
    ⟨0, emptyStore⟩ ⟨0, updateW emptyStore "D" "K" (some (.num 2))⟩
    ⟨0, updateW emptyStore "D" "K" (some (.num 2))⟩ false (some (.num 2)) rfl rfl rfl

/-- Claim C8: `absent` on a currently-present key, outside dry-run, records
the change `{key: {old, new: None}}`, delegates to the write with the absent
value, returns exactly the write's boolean as its success, and comments that
the key has been removed when that boolean is true. -/
theorem c8_absent_removes_present_key {ω : Type} (N : Native ω) (key domain : String)
    (user host runas : Option String) (s s1 s2 : PState ω) (ov : Value) (b : Bool)
    (hread : read N key domain user host runas s = .ok (some ov) s1)
    (hset : set_ N key none domain user host runas s1 = .ok b s2) :
    absent N false key domain user host runas s =
      .ok ⟨key, some b, [(key, (some ov, none))],
        if b then domain ++ " " ++ key ++ " has been removed."
        else "Failed to remove " ++ domain ++ " " ++ key ++ "."⟩ s2 := by
  have hb : ((some ov : Option Value) == none) = false := rfl
  simp only [absent, hread, hb, Bool.false_eq_true, if_false, hset]
  cases b <;> simp

/-- Witness for C8, the specified scenario: removing `IdleTime` from
`com.apple.ScreenSaver` when it currently holds `180` yields success with
the removal change recorded and the removal comment. -/
theorem c8_absent_removes_present_key_witness :
    absent goodNative false "IdleTime" "com.apple.ScreenSaver" none none none ⟨0, w180⟩ =
      .ok ⟨"IdleTime", some true, [("IdleTime", (some (.num 180), none))],
        "com.apple.ScreenSaver IdleTime has been removed."⟩
        ⟨0, updateW w180 "com.apple.ScreenSaver" "IdleTime" none⟩ :=
  c8_absent_removes_present_key goodNative "IdleTime" "com.apple.ScreenSaver"
    none none none ⟨0, w180⟩ ⟨0, w180⟩
    ⟨0, updateW w180 "com.apple.ScreenSaver" "IdleTime" none⟩ (.num 180) true rfl rfl

/-- Counterexample to C6 as stated: in dry-run mode, when the current value
already equals the desired one, the result is already-satisfied with
success `True` — not the claimed would-apply outcome with success `None`. -/
theorem c6_dry_run_already_satisfied :
    exists_ goodNative true "IdleTime" (some (.num 180)) "com.apple.ScreenSaver"
      none none none ⟨0, w180⟩ =
      .ok ⟨"IdleTime", some true, [],
        "com.apple.ScreenSaver IdleTime is already set to 180"⟩ ⟨0, w180⟩
    ∧ (some true ≠ (none : Option Bool)) :=
  ⟨rfl, by decide⟩

/-- Claim C6 as amended: dry-run never writes — the state is unchanged and a
subsequent read still sees the pre-call value — and the result is would-apply
with success `None` exactly when the current value differs from the desired
one (when they are equal it is already-satisfied with success `True`). -/
theorem c6_dry_run_no_effect (w : Store) (key domain : String) (v : Option Value) :
    ∃ r : SRet,
      exists_ goodNative true key v domain none none none ⟨0, w⟩ = .ok r ⟨0, w⟩
      ∧ read goodNative key domain none none none ⟨0, w⟩ =
          .ok ((w domain key).map _convert_pyobjc_objects) ⟨0, w⟩
      ∧ ((((w domain key).map _convert_pyobjc_objects) == v) = true →
          r = ⟨key, some true, [],
            domain ++ " " ++ key ++ " is already set to " ++ pyStr v⟩)
      ∧ ((((w domain key).map _convert_pyobjc_objects) == v) = false →
          r = ⟨key, none, [(key, ((w domain key).map _convert_pyobjc_objects, v))],
            domain ++ " " ++ key ++ " would be set to " ++ pyStr v⟩) := by
  cases hb : ((w domain key).map _convert_pyobjc_objects) == v
  · refine ⟨_, ?_, rfl, fun h => Bool.noConfusion h, fun _ => rfl⟩
    rw [exists_goodNative, hb]
    simp
  · refine ⟨_, ?_, rfl, fun _ => rfl, fun h => Bool.noConfusion h⟩
    rw [exists_goodNative, hb]
    simp

/-- Witness for C6 (amended): dry-run on `IdleTime = 180` with desired value
`200` leaves the store untouched. -/
theorem c6_dry_run_no_effect_witness :
    ∃ r : SRet,
      exists_ goodNative true "IdleTime" (some (.num 200)) "com.apple.ScreenSaver"
        none none none ⟨0, w180⟩ = .ok r ⟨0, w180⟩
      ∧ read goodNative "IdleTime" "com.apple.ScreenSaver" none none none ⟨0, w180⟩ =
          .ok ((w180 "com.apple.ScreenSaver" "IdleTime").map _convert_pyobjc_objects)
            ⟨0, w180⟩
      ∧ ((((w180 "com.apple.ScreenSaver" "IdleTime").map _convert_pyobjc_objects) ==
            some (Value.num 200)) = true →
          r = ⟨"IdleTime", some true, [],
            "com.apple.ScreenSaver IdleTime is already set to 200"⟩)
      ∧ ((((w180 "com.apple.ScreenSaver" "IdleTime").map _convert_pyobjc_objects) ==
            some (Value.num 200)) = false →
          r = ⟨"IdleTime", none,
            [("IdleTime", ((w180 "com.apple.ScreenSaver" "IdleTime").map
              _convert_pyobjc_objects, some (Value.num 200)))],
            "com.apple.ScreenSaver IdleTime would be set to 200"⟩) :=
  c6_dry_run_no_effect w180 "IdleTime" "com.apple.ScreenSaver" (some (.num 200))

/-- Counterexample to C7 as stated: with a date value, the second
`ensure_value` call is not already-satisfied — the date reads back as its
string form, so each call records a change and reports failure. -/
theorem c7_date_value_not_idempotent :
    exists_ goodNative false "K" (some (.date dateStr)) "D" none none none
      ⟨0, emptyStore⟩ =
      .ok ⟨"K", some false, [("K", (none, some (.date dateStr)))],
        "Failed to set D K to " ++ dateStr⟩ ⟨0, dateWorld1⟩
    ∧ exists_ goodNative false "K" (some (.date dateStr)) "D" none none none
        ⟨0, dateWorld1⟩ =
      .ok ⟨"K", some false, [("K", (some (.str dateStr), some (.date dateStr)))],
        "Failed to set D K to " ++ dateStr⟩ ⟨0, dateWorld2⟩
    ∧ (some false ≠ some true)
    ∧ ([("K", ((some (Value.str dateStr) : Option Value), some (Value.date dateStr)))] ≠
        ([] : List (String × (Option Value × Option Value)))) :=
  ⟨rfl, rfl, by decide, by simp⟩

/-- Claim C7 as amended: for every desired value left unchanged by the
read-back conversion (every non-date value), two successive `ensure_value`
calls through a well-behaved store end with the second call
already-satisfied: success `True`, no changes, and the already-set comment.
-/
theorem c7_idempotent_converged_values (w : Store) (key domain : String) (v : Option Value)
    (hv : v.map _convert_pyobjc_objects = v) :
    ∃ r1 s1 r2 s2,
      exists_ goodNative false key v domain none none none ⟨0, w⟩ = .ok r1 s1
      ∧ exists_ goodNative false key v domain none none none s1 = .ok r2 s2
      ∧ r2.result = some true ∧ r2.changes = []
      ∧ r2.comment = domain ++ " " ++ key ++ " is already set to " ++ pyStr v := by
  have hvv : ((v.map _convert_pyobjc_objects) == v) = true := by
    rw [hv]; exact obeq_refl v
  have hup : updateW w domain key v domain key = v := by simp [updateW]
  cases hb : ((w domain key).map _convert_pyobjc_objects) == v
  · refine ⟨⟨key, some true, [(key, ((w domain key).map _convert_pyobjc_objects, v))],
        domain ++ " " ++ key ++ " is set to " ++ pyStr v⟩, ⟨0, updateW w domain key v⟩,
      ⟨key, some true, [], domain ++ " " ++ key ++ " is already set to " ++ pyStr v⟩,
      ⟨0, updateW w domain key v⟩, ?_, ?_, rfl, rfl, rfl⟩
    · rw [exists_goodNative, hb, hvv]
      simp
    · rw [exists_goodNative, hup, hvv]
      simp
  · refine ⟨⟨key, some true, [], domain ++ " " ++ key ++ " is already set to " ++ pyStr v⟩,
      ⟨0, w⟩,
      ⟨key, some true, [], domain ++ " " ++ key ++ " is already set to " ++ pyStr v⟩,
      ⟨0, w⟩, ?_, ?_, rfl, rfl, rfl⟩
    · rw [exists_goodNative, hb]
      simp
    · rw [exists_goodNative, hb]
      simp

/-- Witness for C7 (amended): two successive `ensure_value("K2", 7, "D")`
calls on an empty store end already-satisfied. -/
theorem c7_idempotent_converged_values_witness :
    ∃ r1 s1 r2 s2,
      exists_ goodNative false "K2" (some (.num 7)) "D" none none none ⟨0, emptyStore⟩ =
        .ok r1 s1
      ∧ exists_ goodNative false "K2" (some (.num 7)) "D" none none none s1 = .ok r2 s2
      ∧ r2.result = some true ∧ r2.changes = []
      ∧ r2.comment = "D" ++ " " ++ "K2" ++ " is already set to " ++ pyStr (some (.num 7)) :=
  c7_idempotent_converged_values emptyStore "K2" "D" (some (.num 7)) rfl

/-- When the per-key read loop of `list_` returns normally, the dictionary
it built has exactly the traversed keys, in order. -/
theorem readLoop_keys {ω : Type} (N : Native ω) (domainName : String)
    (user host runas : Option String) :
    ∀ (ks : List String) (s : PState ω) (m : List (String × Option Value)) (s2 : PState ω),
      readLoop N domainName user host runas ks s = .ok m s2 → m.map Prod.fst = ks := by
  intro ks
  induction ks with
  | nil =>
    intro s m s2 h
    simp only [readLoop] at h
    cases h
    rfl
  | cons k ks ih =>
    intro s m s2 h
    simp only [readLoop] at h
    split at h
    · cases h
    · split at h
      · cases h
      · rename_i m0 s3 hl
        cases h
        simp [ih _ _ _ hl]

/-- Claim C9: a `list` call with `values=True` never returns a partial
mapping — whenever it returns normally, the result is either Python `None`
(the whole-listing failure produced by a `TypeError` during value
resolution) or a dictionary whose keys are exactly the keys the same call
with `values=False` lists. -/
theorem c9_no_partial_mapping {ω : Type} (N : Native ω) (name : String)
    (user host runas : Option String) (s s2 : PState ω) (ret : ListRet)
    (h : list_ N name user host runas true s = .ok ret s2) :
    ret = .pyNone ∨
      ∃ m ks s3, ret = .vals m
        ∧ list_ N name user host runas false s = .ok (.keys ks) s3
        ∧ m.map Prod.fst = ks := by
  rcases hc : _check_args user host runas with e | b
  · have hrun : list_ N name user host runas true s = .err e s := by
      simp only [list_, hc]
    rw [hrun] at h
    cases h
  rcases hg : _get_user_and_host user host with e | ⟨ud, hd⟩
  · have hrun : list_ N name user host runas true s = .err e s := by
      simp only [list_, hc, hg]
    rw [hrun] at h
    cases h
  rcases hrr : resolveRunas N runasMissingBracketMsg runas s with ⟨u0, s1⟩ | ⟨e, s1⟩
  swap
  · have hrun : list_ N name user host runas true s = .err e s1 := by
      simp only [list_, hc, hg, hrr]
    rw [hrun] at h
    cases h
  rcases hkl : N.copyKeyList name ud hd s1.world with ⟨e | kl, w⟩
  · have hrun : list_ N name user host runas true s = .err e ⟨s1.euid, w⟩ := by
      simp only [list_, hc, hg, hrr, hkl]
    rw [hrun] at h
    cases h
  rcases hloop : readLoop N name user host runas (kl.getD []) ⟨0, w⟩ with ⟨m, s3⟩ | ⟨e, s3⟩
  · have hrun : list_ N name user host runas true s = .ok (.vals m) s3 := by
      simp only [list_, hc, hg, hrr, hkl, hloop]
      simp
    rw [hrun] at h
    cases h
    refine Or.inr ⟨m, kl.getD [], ⟨0, w⟩, rfl, ?_, ?_⟩
    · simp only [list_, hc, hg, hrr, hkl]
      simp
    · exact readLoop_keys N name user host runas (kl.getD []) ⟨0, w⟩ m _ hloop
  · cases e
    case typeError =>
      have hrun : list_ N name user host runas true s = .ok .pyNone s3 := by
        simp only [list_, hc, hg, hrr, hkl, hloop]
        simp
      rw [hrun] at h
      cases h
      exact Or.inl rfl
    all_goals
      first
      | (rename_i msg
         have hrun : list_ N name user host runas true s =
             .err (.commandExecutionError msg) s3 := by
           simp only [list_, hc, hg, hrr, hkl, hloop]
           simp
         rw [hrun] at h
         cases h)
      | (rename_i msg
         have hrun : list_ N name user host runas true s = .err (.nativeError msg) s3 := by
           simp only [list_, hc, hg, hrr, hkl, hloop]
           simp
         rw [hrun] at h
         cases h)
      | (have hrun : list_ N name user host runas true s = .err .attributeError s3 := by
           simp only [list_, hc, hg, hrr, hkl, hloop]
           simp
         rw [hrun] at h
         cases h)

/-- Witness for C9: against a native layer that lists keys "a" and "b" but
raises `TypeError` while reading "b", the whole `values=True` listing
collapses to `None` (no partial `{a: 1}` mapping), as the claim requires. -/
theorem c9_no_partial_mapping_witness :
    list_ badTypeNative "D" (some "any") (some "any") none true ⟨0, ()⟩ =
      .ok .pyNone ⟨0, ()⟩
    ∧ (ListRet.pyNone = .pyNone ∨
      ∃ m ks s3, ListRet.pyNone = .vals m
        ∧ list_ badTypeNative "D" (some "any") (some "any") none false ⟨0, ()⟩ =
            .ok (.keys ks) s3
        ∧ m.map Prod.fst = ks) :=
  ⟨rfl, c9_no_partial_mapping badTypeNative "D" (some "any") (some "any") none
    ⟨0, ()⟩ ⟨0, ()⟩ .pyNone rfl⟩
